import Mathlib

/-!
Verification of the `r-che/log` package (file `obj.go` and its collaborators)
against its natural-language specification.

The Go code is shallowly embedded: the mutable `Logger` object together with
the surrounding process state (filesystem contents, the default stream, the
statistics-hook call traces) becomes an explicit state record, and every
exported operation becomes a state-transition function.  Text is modelled at
the character level (`List Char`), machine integers as `Nat` with the exact
bit operations of the source, and the small slice of `fmt.Sprintf` exercised
by the package (the `%d` verb) is implemented directly.
-/

namespace RLog

/-- Character strings of the model. -/
abbrev Str := List Char

/-! ### Flag constants (Go standard `log` package plus this package). -/

def Ldate : Nat := 1
def Ltime : Nat := 2
def Lmicroseconds : Nat := 4
def Llongfile : Nat := 8
def Lshortfile : Nat := 16
def LUTC : Nat := 32
def Lmsgprefix : Nat := 64
def LstdFlags : Nat := Ldate + Ltime

/-- `NoPID = (1 << 31) >> iota` with `iota = 0` (`log.go`). -/
def NoPID : Nat := 2 ^ 31

def NoFlags : Nat := 0

/-- `logFlagsAlways = log.Lmsgprefix` (`obj.go`). -/
def logFlagsAlways : Nat := Lmsgprefix

/-- Flag bits that make Go's `log.Logger` emit a date/time/file header before
the message: `Ldate|Ltime|Lmicroseconds|Llongfile|Lshortfile` (`LUTC` alone
produces no text). -/
def headerMask : Nat := Ldate + Ltime + Lmicroseconds + Llongfile + Lshortfile

/-! ### Error taxonomy (`errors.go`).

`OpError` wraps a plain error; `FileError` additionally records the causing
OS error and unwraps to it; `ErrLogClosed` is the close-when-not-open
sentinel (an `OpError` value).  OS errors are restricted to the two
conditions the package can hit. -/

inductive OsErr where
  | errNotExist
  | errClosed
  deriving DecidableEq

inductive LogErr where
  /-- `FileError` produced by `NewFileError(_, cause)`. -/
  | fileError (cause : OsErr)
  /-- The `ErrLogClosed` sentinel. -/
  | errLogClosed
  deriving DecidableEq

/-- `errors.Is(err, target)` through `FileError.Unwrap`, for OS targets. -/
def LogErr.isCause : LogErr → OsErr → Bool
  | .fileError c, o => c = o
  | .errLogClosed, _ => false

/-! ### A fragment of `fmt.Sprintf`.

Only the `%d` verb occurs in the package's own usage; every other character
is copied verbatim.  A `%d` with no argument left renders Go's
`%!d(MISSING)` notice. -/

def intStr (i : Int) : Str := (toString i).toList

def sprintfChars : Str → List Int → Str
  | [], _ => []
  | [c], _ => [c]
  | c :: d :: rest2, args =>
    if c = '%' ∧ d = 'd' then
      match args with
      | a :: as => intStr a ++ sprintfChars rest2 as
      | [] => "%!d(MISSING)".toList ++ sprintfChars rest2 []
    else c :: sprintfChars (d :: rest2) args

/-- Does the string end with a line feed?  (Go's `log.Output` appends `\n`
only when the message does not already end with one.) -/
def endsWithNl : Str → Bool
  | [] => false
  | [c] => c = '\n'
  | _ :: rest => endsWithNl rest

/-- Split on `'\n'`, exactly like Go's `strings.Split(s, "\n")`:
a string ending in a newline yields a final empty field. -/
def splitNlChars : Str → List Str
  | [] => [[]]
  | c :: rest =>
    if c = '\n' then [] :: splitNlChars rest
    else
      match splitNlChars rest with
      | [] => [[c]]
      | l :: ls => (c :: l) :: ls

/-- Concatenate line bodies, terminating each with a line feed. -/
def linesJoin (bs : List Str) : Str := (bs.map (fun b => b ++ ['\n'])).flatten

/-! ### Filesystem model.

An association list from path to file content, plus (passed separately to
the opening operations) a predicate telling which paths live in an existing
directory. -/

def fsRead : List (Str × Str) → Str → Option Str
  | [], _ => none
  | (q, c) :: rest, p => if q = p then some c else fsRead rest p

def fsWrite : List (Str × Str) → Str → Str → List (Str × Str)
  | [], p, c => [(p, c)]
  | (q, d) :: rest, p, c =>
    if q = p then (q, c) :: rest else (q, d) :: fsWrite rest p c

def fsAppend (fs : List (Str × Str)) (p s : Str) : List (Str × Str) :=
  fsWrite fs p ((fsRead fs p).getD [] ++ s)

/-! ### The `Logger` object (`obj.go`) and ambient process state.

Statistics hooks are identified by an abstract `Nat` tag (`none` = no hook
installed); every hook invocation is recorded, with its tag and the exact
format/argument payload, in a trace inside the ambient state. -/

structure Logger where
  /-- Does `l.logger` write to the default stream (`os.Stderr`)? -/
  isDefault : Bool := true
  /-- Is the underlying file handle open (file destination only)?  A handle
  closed out-of-band makes `Close` fail like `os.File.Close` on a closed
  file. -/
  handleOpen : Bool := false
  /-- Prefix installed on the backend `log.Logger` by `openLog`. -/
  loggerPfx : Str := []
  /-- Flags installed on the backend `log.Logger`. -/
  loggerFlags : Nat := LstdFlags
  /-- `l.logName`. -/
  logName : Str := []
  /-- `l.origPrefix`. -/
  origPfx : Str := []
  /-- `l.logPrefix`. -/
  logPfx : Str := []
  /-- `l.logFlags`. -/
  logFlags : Nat := 0
  /-- `l.debug`. -/
  debug : Bool := false
  /-- `l.closed`. -/
  closed : Bool := false
  /-- Has `Open` launched the writer goroutine? -/
  workerStarted : Bool := false
  /-- Is the worker parked in the stop/start handshake (between a stop
  acknowledgment and the next resume)? -/
  workerParked : Bool := false
  /-- `l.errEventStat` (`none` = nil). -/
  errEventStat : Option Nat := none
  /-- `l.wrnEventStat` (`none` = nil). -/
  wrnEventStat : Option Nat := none
  deriving DecidableEq

/-- `NewLogger()`: default backend (`log.Default()`, i.e. stderr with
`LstdFlags`), `closed = true`. -/
def NewLogger : Logger := { isDefault := true, closed := true }

structure Sys where
  lg : Logger := NewLogger
  /-- Filesystem: path to content. -/
  fs : List (Str × Str) := []
  /-- Everything written to the default stream. -/
  stderrOut : Str := []
  /-- Prefix currently installed on the process-wide default logger
  (mirrored by `openLog` via `log.SetPrefix`). -/
  defPfx : Str := []
  /-- Flags of the process-wide default logger. -/
  defFlags : Nat := LstdFlags
  /-- Abstract text a header-producing flag would emit (date/time/file). -/
  clock : Str := []
  /-- Trace of warning-hook invocations: (hook tag, format, args). -/
  wrnCalls : List (Nat × Str × List Int) := []
  /-- Trace of error-hook invocations. -/
  errCalls : List (Nat × Str × List Int) := []
  /-- Did `log.Fatalf` terminate the process? -/
  exited : Bool := false
  deriving DecidableEq

/-! ### Line rendering (Go `log.Logger.Output`).

Without `Lmsgprefix` the prefix precedes the header, with it the prefix sits
directly before the message; the date/time/file header appears only when a
bit of `headerMask` is set. -/

def renderLine (flags : Nat) (clock pfx msg : Str) : Str :=
  (if flags &&& Lmsgprefix = 0 then pfx else [])
    ++ (if flags &&& headerMask ≠ 0 then clock else [])
    ++ (if flags &&& Lmsgprefix ≠ 0 then pfx else [])
    ++ msg ++ (if endsWithNl msg then [] else ['\n'])

/-- One `Printf` on the Logger's backend: renders the line and appends it to
the destination.  A write to a file whose handle was closed out-of-band is
lost. -/
def backendWrite (s : Sys) (msg : Str) : Sys :=
  let line := renderLine s.lg.loggerFlags s.clock s.lg.loggerPfx msg
  if s.lg.isDefault then { s with stderrOut := s.stderrOut ++ line }
  else if s.lg.handleOpen then { s with fs := fsAppend s.fs s.lg.logName line }
  else s

/-- One `log.Printf` on the process-wide default logger (used by `E`/`F` to
duplicate to stderr). -/
def defaultWrite (s : Sys) (msg : Str) : Sys :=
  { s with stderrOut := s.stderrOut ++ renderLine s.defFlags s.clock s.defPfx msg }

/-- `writeEvent` plus the worker's handling of the message: format the
message, write it once, and on a fatal message with `fatalDoExit` record the
process exit (`log.Fatalf` = print + exit). -/
def writeEvent (s : Sys) (format : Str) (args : List Int)
    (fatal fatalDoExit : Bool) : Sys :=
  let msg := sprintfChars format args
  if fatal && fatalDoExit then { backendWrite s msg with exited := true }
  else backendWrite s msg

/-! ### Level functions (`obj.go`, `D`/`I`/`W`/`E`/`F`). -/

def Logger.D (s : Sys) (format : Str) (v : List Int) : Sys :=
  if !s.lg.debug then s
  else writeEvent s ("<D> ".toList ++ format) v false false

def Logger.I (s : Sys) (format : Str) (v : List Int) : Sys :=
  writeEvent s format v false false

def Logger.W (s : Sys) (format : Str) (v : List Int) : Sys :=
  let s1 := writeEvent s ("<WRN> ".toList ++ format) v false false
  match s1.lg.wrnEventStat with
  | some h => { s1 with wrnCalls := s1.wrnCalls ++ [(h, format, v)] }
  | none => s1

def Logger.E (s : Sys) (format : Str) (v : List Int) : Sys :=
  let s1 :=
    if !s.lg.isDefault then
      defaultWrite s (sprintfChars ("<ERR> ".toList ++ format) v)
    else s
  let s2 := writeEvent s1 ("<ERR> ".toList ++ format) v false false
  match s2.lg.errEventStat with
  | some h => { s2 with errCalls := s2.errCalls ++ [(h, format, v)] }
  | none => s2

def Logger.F (s : Sys) (format : Str) (v : List Int) (fatalDoExit : Bool) : Sys :=
  let s1 :=
    if !s.lg.isDefault then
      defaultWrite s (sprintfChars ("<FATAL> ".toList ++ format) v)
    else s
  writeEvent s1 ("<FATAL> ".toList ++ format) v true fatalDoExit

/-! ### Configuration (`setFlags`, `SetDebug`, `SetStatFuncs`, `Flags`). -/

/-- `l.setFlags(prefix, flags)`: note that with the `NoPID` bit set and an
empty prefix the code leaves `l.logPrefix` untouched. -/
def Logger.setFlags (l : Logger) (pfx : Str) (flags pid : Nat) : Logger :=
  let l1 := { l with origPfx := pfx }
  let l2 :=
    if flags &&& NoPID = 0 then
      { l1 with logPfx := pfx ++ "[".toList ++ (toString pid).toList ++ "]: ".toList }
    else if pfx ≠ [] then
      { l1 with logPfx := pfx ++ ": ".toList }
    else l1
  { l2 with logFlags := flags ||| logFlagsAlways }

def Logger.SetDebug (s : Sys) (v : Bool) : Sys :=
  { s with lg := { s.lg with debug := v } }

def Logger.SetStatFuncs (s : Sys) (ef wf : Option Nat) : Sys :=
  { s with lg := { s.lg with errEventStat := ef, wrnEventStat := wf } }

def Logger.Flags (l : Logger) : Nat := l.logFlags

/-! ### Lifecycle (`openLog`, `Open`, `Close`, `Reopen`, `SetFlags`). -/

/-- `l.openLog()`: bind the backend to the default stream or to the file at
`l.logName` (append, create if missing, fail with a `FileError` wrapping the
not-exist OS error when the containing directory is absent), install
prefix/flags on the backend, mirror them on the default logger, and clear
the closed flag. -/
def Logger.openLog (s : Sys) (dirOk : Str → Bool) : Option LogErr × Sys :=
  let l := s.lg
  if l.logName = [] then
    let l2 := { l with isDefault := true, handleOpen := true,
                       loggerPfx := l.logPfx, loggerFlags := l.logFlags,
                       closed := false }
    (none, { s with lg := l2, defPfx := l.logPfx, defFlags := l.logFlags })
  else
    match fsRead s.fs l.logName with
    | some _ =>
      let l2 := { l with isDefault := false, handleOpen := true,
                         loggerPfx := l.logPfx, loggerFlags := l.logFlags,
                         closed := false }
      (none, { s with lg := l2, defPfx := l.logPfx, defFlags := l.logFlags })
    | none =>
      if dirOk l.logName then
        let l2 := { l with isDefault := false, handleOpen := true,
                           loggerPfx := l.logPfx, loggerFlags := l.logFlags,
                           closed := false }
        (none, { s with lg := l2, fs := fsWrite s.fs l.logName [],
                        defPfx := l.logPfx, defFlags := l.logFlags })
      else (some (.fileError .errNotExist), s)

/-- `l.Open(file, prefix, flags)`: record the destination, resolve
prefix/flags, open the backend, and only on success start the worker. -/
def Logger.Open (s : Sys) (file pfx : Str) (flags pid : Nat)
    (dirOk : Str → Bool) : Option LogErr × Sys :=
  let l1 := { s.lg with logName := file }
  let l2 := l1.setFlags pfx flags pid
  match Logger.openLog { s with lg := l2 } dirOk with
  | (some e, s2) => (some e, s2)
  | (none, s2) =>
    (none, { s2 with lg := { s2.lg with workerStarted := true, workerParked := false } })

inductive CloseRet where
  /-- The call never returns: the stop/resume handshake deadlocks. -/
  | blocked
  | retOk
  | retErr (e : LogErr)
  deriving DecidableEq

/-- `l.Close()`.  Already-closed: the sentinel.  Otherwise the stop
handshake parks the worker (it deadlocks when the worker is already
parked).  Empty destination: return nil at once — the closed flag is *not*
set on this path.  File destination: close the handle; only on success is
the closed flag set. -/
def Logger.Close (s : Sys) : CloseRet × Sys :=
  if s.lg.closed then (.retErr .errLogClosed, s)
  else if s.lg.workerParked then (.blocked, s)
  else
    let s1 := { s with lg := { s.lg with workerParked := true } }
    if s1.lg.logName = [] then (.retOk, s1)
    else if s1.lg.handleOpen then
      (.retOk, { s1 with lg := { s1.lg with handleOpen := false, closed := true } })
    else (.retErr (.fileError .errClosed), s1)

/-- `l.Reopen()`: `Close` (propagating its error without reopening), then
`openLog` at the unchanged `l.logName`, then resume the worker. -/
def Logger.Reopen (s : Sys) (dirOk : Str → Bool) : CloseRet × Sys :=
  match Logger.Close s with
  | (.blocked, s1) => (.blocked, s1)
  | (.retErr e, s1) => (.retErr e, s1)
  | (.retOk, s1) =>
    match Logger.openLog s1 dirOk with
    | (some e, s2) => (.retErr e, s2)
    | (none, s2) =>
      (.retOk, { s2 with lg := { s2.lg with workerParked := false } })

/-- `l.SetFlags(flags)`: recompute prefix/flags with the preserved original
prefix, then a full `Reopen`. -/
def Logger.SetFlags (s : Sys) (flags pid : Nat) (dirOk : Str → Bool) :
    CloseRet × Sys :=
  Logger.Reopen { s with lg := s.lg.setFlags s.lg.origPfx flags pid } dirOk

/-- Package-level `Open` (`log.go`): replace the singleton by a brand-new
`Logger`, then open it. -/
def pkgOpen (s : Sys) (file pfx : Str) (flags pid : Nat)
    (dirOk : Str → Bool) : Option LogErr × Sys :=
  Logger.Open { s with lg := NewLogger } file pfx flags pid dirOk

/-! ### Event sequences. -/

inductive Ev where
  | dbg (f : Str) (a : List Int)
  | inf (f : Str) (a : List Int)
  | wrn (f : Str) (a : List Int)
  | err (f : Str) (a : List Int)
  | fat (f : Str) (a : List Int)
  deriving DecidableEq

def runEv (s : Sys) : Ev → Sys
  | .dbg f a => Logger.D s f a
  | .inf f a => Logger.I s f a
  | .wrn f a => Logger.W s f a
  | .err f a => Logger.E s f a
  | .fat f a => Logger.F s f a false

def runEvs (s : Sys) : List Ev → Sys
  | [] => s
  | e :: es => runEvs (runEv s e) es

/-! ## Basic lemmas about the text utilities. -/

theorem sprintfChars_cons_ne (c : Char) (w : Str) (a : List Int) (hc : c ≠ '%') :
    sprintfChars (c :: w) a = c :: sprintfChars w a := by
  cases w with
  | nil => cases a <;> simp [sprintfChars]
  | cons d r =>
    conv_lhs => rw [sprintfChars.eq_def]
    simp [hc]

/-- Prepending a verb-free prefix commutes with formatting: this is how the
`"<WRN> " + format` envelopes of the source relate to the spec's
`"<levelMarker><formatted message>"` shape. -/
theorem sprintfChars_append (p f : Str) (a : List Int) (hp : '%' ∉ p) :
    sprintfChars (p ++ f) a = p ++ sprintfChars f a := by
  induction p with
  | nil => simp
  | cons c cs ih =>
    have hc : c ≠ '%' := fun h => hp (by simp [h])
    have hcs : '%' ∉ cs := fun h => hp (List.mem_cons_of_mem _ h)
    rw [List.cons_append, sprintfChars_cons_ne _ _ _ hc, ih hcs, List.cons_append]

theorem endsWithNl_eq_false (m : Str) (hm : '\n' ∉ m) : endsWithNl m = false := by
  induction m with
  | nil => rfl
  | cons c cs ih =>
    cases cs with
    | nil =>
      have : c ≠ '\n' := fun h => hm (by simp [h])
      simp [endsWithNl, this]
    | cons d r =>
      have : '\n' ∉ d :: r := fun h => hm (List.mem_cons_of_mem _ h)
      simpa [endsWithNl] using ih this

theorem splitNlChars_ne_nil (s : Str) : splitNlChars s ≠ [] := by
  induction s with
  | nil => decide
  | cons c cs ih =>
    by_cases h : c = '\n'
    · simp [splitNlChars, h]
    · simp only [splitNlChars, if_neg h]
      cases e : splitNlChars cs with
      | nil => simp
      | cons l ls => simp

theorem splitNlChars_body (b t : Str) (hb : '\n' ∉ b) :
    splitNlChars (b ++ '\n' :: t) = b :: splitNlChars t := by
  induction b with
  | nil => simp [splitNlChars]
  | cons c cs ih =>
    have hc : c ≠ '\n' := fun h => hb (by simp [h])
    have hcs : '\n' ∉ cs := fun h => hb (List.mem_cons_of_mem _ h)
    rw [List.cons_append]
    simp only [splitNlChars, if_neg hc, ih hcs]

@[simp] theorem linesJoin_nil : linesJoin [] = [] := rfl

theorem linesJoin_cons (b : Str) (bs : List Str) :
    linesJoin (b :: bs) = b ++ '\n' :: linesJoin bs := by
  simp [linesJoin]

/-- A newline-terminated concatenation of newline-free bodies splits back
into exactly those bodies followed by one empty trailing field — i.e. the
output holds one text line per body, in order, and ends with a newline. -/
theorem splitNlChars_linesJoin (bs : List Str) (h : ∀ b ∈ bs, '\n' ∉ b) :
    splitNlChars (linesJoin bs) = bs ++ [[]] := by
  induction bs with
  | nil => simp [splitNlChars]
  | cons b rest ih =>
    rw [linesJoin_cons, splitNlChars_body _ _ (h b (by simp)),
      ih (fun x hx => h x (by simp [hx]))]
    rfl

/-! ## Basic lemmas about the filesystem model. -/

theorem fsRead_fsWrite_self (fs : List (Str × Str)) (p v : Str) :
    fsRead (fsWrite fs p v) p = some v := by
  induction fs with
  | nil => simp [fsWrite, fsRead]
  | cons e rest ih =>
    by_cases h : e.1 = p
    · simp [fsWrite, fsRead, h]
    · simp [fsWrite, fsRead, h, ih]

theorem fsRead_fsAppend_self (fs : List (Str × Str)) (p x c : Str)
    (hc : fsRead fs p = some c) :
    fsRead (fsAppend fs p x) p = some (c ++ x) := by
  unfold fsAppend
  rw [hc, fsRead_fsWrite_self]
  rfl

/-! ## Line rendering without header flags. -/

/-- When no date/time/file flag is set and the message carries no trailing
newline, a backend write is exactly `prefix ++ message ++ "\n"` (whichever
side of the header `Lmsgprefix` puts the prefix on). -/
theorem renderLine_plain (flags : Nat) (clock pfx msg : Str)
    (hh : flags &&& headerMask = 0) (hm : endsWithNl msg = false) :
    renderLine flags clock pfx msg = pfx ++ msg ++ ['\n'] := by
  unfold renderLine
  by_cases h64 : flags &&& Lmsgprefix = 0 <;> simp [h64, hh, hm]

/-! ## What each write primitive leaves untouched. -/

@[simp] theorem backendWrite_lg (s : Sys) (m : Str) : (backendWrite s m).lg = s.lg := by
  unfold backendWrite
  by_cases h1 : s.lg.isDefault <;> by_cases h2 : s.lg.handleOpen <;> simp [h1, h2]

@[simp] theorem backendWrite_clock (s : Sys) (m : Str) :
    (backendWrite s m).clock = s.clock := by
  unfold backendWrite
  by_cases h1 : s.lg.isDefault <;> by_cases h2 : s.lg.handleOpen <;> simp [h1, h2]

@[simp] theorem backendWrite_wrnCalls (s : Sys) (m : Str) :
    (backendWrite s m).wrnCalls = s.wrnCalls := by
  unfold backendWrite
  by_cases h1 : s.lg.isDefault <;> by_cases h2 : s.lg.handleOpen <;> simp [h1, h2]

@[simp] theorem backendWrite_errCalls (s : Sys) (m : Str) :
    (backendWrite s m).errCalls = s.errCalls := by
  unfold backendWrite
  by_cases h1 : s.lg.isDefault <;> by_cases h2 : s.lg.handleOpen <;> simp [h1, h2]

/-- A backend write on a file-backed logger with an open handle appends the
rendered line to the destination file. -/
theorem backendWrite_fs_file (s : Sys) (m c : Str)
    (hdef : s.lg.isDefault = false) (hop : s.lg.handleOpen = true)
    (hc : fsRead s.fs s.lg.logName = some c) :
    fsRead (backendWrite s m).fs s.lg.logName
      = some (c ++ renderLine s.lg.loggerFlags s.clock s.lg.loggerPfx m) := by
  unfold backendWrite
  simp only [hdef, hop, Bool.false_eq_true, if_false, if_true]
  exact fsRead_fsAppend_self _ _ _ _ hc

@[simp] theorem defaultWrite_lg (s : Sys) (m : Str) : (defaultWrite s m).lg = s.lg := rfl

@[simp] theorem defaultWrite_fs (s : Sys) (m : Str) : (defaultWrite s m).fs = s.fs := rfl

@[simp] theorem defaultWrite_clock (s : Sys) (m : Str) :
    (defaultWrite s m).clock = s.clock := rfl

@[simp] theorem defaultWrite_wrnCalls (s : Sys) (m : Str) :
    (defaultWrite s m).wrnCalls = s.wrnCalls := rfl

@[simp] theorem defaultWrite_errCalls (s : Sys) (m : Str) :
    (defaultWrite s m).errCalls = s.errCalls := rfl

@[simp] theorem writeEvent_lg (s : Sys) (f : Str) (a : List Int) (ft dx : Bool) :
    (writeEvent s f a ft dx).lg = s.lg := by
  unfold writeEvent
  by_cases h : ft && dx <;> simp [h]

@[simp] theorem writeEvent_clock (s : Sys) (f : Str) (a : List Int) (ft dx : Bool) :
    (writeEvent s f a ft dx).clock = s.clock := by
  unfold writeEvent
  by_cases h : ft && dx <;> simp [h]

@[simp] theorem writeEvent_wrnCalls (s : Sys) (f : Str) (a : List Int) (ft dx : Bool) :
    (writeEvent s f a ft dx).wrnCalls = s.wrnCalls := by
  unfold writeEvent
  by_cases h : ft && dx <;> simp [h]

@[simp] theorem writeEvent_errCalls (s : Sys) (f : Str) (a : List Int) (ft dx : Bool) :
    (writeEvent s f a ft dx).errCalls = s.errCalls := by
  unfold writeEvent
  by_cases h : ft && dx <;> simp [h]

@[simp] theorem writeEvent_fs (s : Sys) (f : Str) (a : List Int) (ft dx : Bool) :
    (writeEvent s f a ft dx).fs = (backendWrite s (sprintfChars f a)).fs := by
  unfold writeEvent
  by_cases h : ft && dx <;> simp [h]

/-- A non-fatal event on a file-backed logger with an open handle, no
header flag and a newline-free message appends
`prefix ++ message ++ "\n"` to the destination file. -/
theorem writeEvent_fs_plain (s : Sys) (f : Str) (a : List Int) (c : Str)
    (hdef : s.lg.isDefault = false) (hop : s.lg.handleOpen = true)
    (hflags : s.lg.loggerFlags &&& headerMask = 0)
    (hnl : '\n' ∉ sprintfChars f a)
    (hc : fsRead s.fs s.lg.logName = some c) :
    fsRead (writeEvent s f a false false).fs s.lg.logName
      = some (c ++ (s.lg.loggerPfx ++ sprintfChars f a ++ ['\n'])) := by
  rw [writeEvent_fs, backendWrite_fs_file s _ c hdef hop hc,
    renderLine_plain _ _ _ _ hflags (endsWithNl_eq_false _ hnl)]

/-! ## What each level function leaves untouched. -/

@[simp] theorem D_lg (s : Sys) (f : Str) (v : List Int) : (Logger.D s f v).lg = s.lg := by
  unfold Logger.D
  by_cases h : s.lg.debug <;> simp [h]

@[simp] theorem I_lg (s : Sys) (f : Str) (v : List Int) : (Logger.I s f v).lg = s.lg := by
  unfold Logger.I
  simp

@[simp] theorem W_lg (s : Sys) (f : Str) (v : List Int) : (Logger.W s f v).lg = s.lg := by
  unfold Logger.W
  cases h : s.lg.wrnEventStat <;> simp [h]

@[simp] theorem E_lg (s : Sys) (f : Str) (v : List Int) : (Logger.E s f v).lg = s.lg := by
  unfold Logger.E
  by_cases h1 : s.lg.isDefault <;> cases h : s.lg.errEventStat <;> simp [h1, h]

@[simp] theorem F_lg (s : Sys) (f : Str) (v : List Int) (dx : Bool) :
    (Logger.F s f v dx).lg = s.lg := by
  unfold Logger.F
  by_cases h1 : s.lg.isDefault <;> simp [h1]

@[simp] theorem runEv_lg (s : Sys) (e : Ev) : (runEv s e).lg = s.lg := by
  cases e <;> simp [runEv]

/-! ## File content written by each level function. -/

theorem D_disabled (s : Sys) (f : Str) (v : List Int) (h : s.lg.debug = false) :
    Logger.D s f v = s := by
  simp [Logger.D, h]

@[simp] theorem W_fs (s : Sys) (f : Str) (v : List Int) :
    (Logger.W s f v).fs = (writeEvent s ("<WRN> ".toList ++ f) v false false).fs := by
  unfold Logger.W
  cases h : s.lg.wrnEventStat <;> simp [h]

theorem E_fs (s : Sys) (f : Str) (v : List Int) (hdef : s.lg.isDefault = false) :
    (Logger.E s f v).fs
      = (writeEvent (defaultWrite s (sprintfChars ("<ERR> ".toList ++ f) v))
          ("<ERR> ".toList ++ f) v false false).fs := by
  unfold Logger.E
  cases h : s.lg.errEventStat <;> simp [h, hdef]

theorem no_pct_wrn : '%' ∉ "<WRN> ".toList := by decide
theorem no_pct_err : '%' ∉ "<ERR> ".toList := by decide
theorem no_pct_dbg : '%' ∉ "<D> ".toList := by decide

theorem I_fs_plain (s : Sys) (f : Str) (v : List Int) (c : Str)
    (hdef : s.lg.isDefault = false) (hop : s.lg.handleOpen = true)
    (hflags : s.lg.loggerFlags &&& headerMask = 0)
    (hnl : '\n' ∉ sprintfChars f v)
    (hc : fsRead s.fs s.lg.logName = some c) :
    fsRead (Logger.I s f v).fs s.lg.logName
      = some (c ++ (s.lg.loggerPfx ++ sprintfChars f v ++ ['\n'])) :=
  writeEvent_fs_plain s f v c hdef hop hflags hnl hc

theorem W_fs_plain (s : Sys) (f : Str) (v : List Int) (c : Str)
    (hdef : s.lg.isDefault = false) (hop : s.lg.handleOpen = true)
    (hflags : s.lg.loggerFlags &&& headerMask = 0)
    (hnl : '\n' ∉ sprintfChars f v)
    (hc : fsRead s.fs s.lg.logName = some c) :
    fsRead (Logger.W s f v).fs s.lg.logName
      = some (c ++ (s.lg.loggerPfx ++ ("<WRN> ".toList ++ sprintfChars f v) ++ ['\n'])) := by
  rw [W_fs]
  have hd := sprintfChars_append "<WRN> ".toList f v no_pct_wrn
  have hnl2 : '\n' ∉ sprintfChars ("<WRN> ".toList ++ f) v := by
    rw [hd]
    intro hmem
    rcases List.mem_append.mp hmem with h | h
    · exact absurd h (by decide)
    · exact hnl h
  have := writeEvent_fs_plain s ("<WRN> ".toList ++ f) v c hdef hop hflags hnl2 hc
  rwa [hd] at this

theorem E_fs_plain (s : Sys) (f : Str) (v : List Int) (c : Str)
    (hdef : s.lg.isDefault = false) (hop : s.lg.handleOpen = true)
    (hflags : s.lg.loggerFlags &&& headerMask = 0)
    (hnl : '\n' ∉ sprintfChars f v)
    (hc : fsRead s.fs s.lg.logName = some c) :
    fsRead (Logger.E s f v).fs s.lg.logName
      = some (c ++ (s.lg.loggerPfx ++ ("<ERR> ".toList ++ sprintfChars f v) ++ ['\n'])) := by
  rw [E_fs s f v hdef]
  have hd := sprintfChars_append "<ERR> ".toList f v no_pct_err
  have hnl2 : '\n' ∉ sprintfChars ("<ERR> ".toList ++ f) v := by
    rw [hd]
    intro hmem
    rcases List.mem_append.mp hmem with h | h
    · exact absurd h (by decide)
    · exact hnl h
  have := writeEvent_fs_plain (defaultWrite s (sprintfChars ("<ERR> ".toList ++ f) v))
    ("<ERR> ".toList ++ f) v c (by simpa) (by simpa) (by simpa) hnl2 (by simpa)
  simp only [defaultWrite_lg] at this
  rw [hd] at this ⊢
  exact this

theorem D_fs_plain (s : Sys) (f : Str) (v : List Int) (c : Str)
    (hdbg : s.lg.debug = true)
    (hdef : s.lg.isDefault = false) (hop : s.lg.handleOpen = true)
    (hflags : s.lg.loggerFlags &&& headerMask = 0)
    (hnl : '\n' ∉ sprintfChars f v)
    (hc : fsRead s.fs s.lg.logName = some c) :
    fsRead (Logger.D s f v).fs s.lg.logName
      = some (c ++ (s.lg.loggerPfx ++ ("<D> ".toList ++ sprintfChars f v) ++ ['\n'])) := by
  unfold Logger.D
  rw [hdbg]
  simp only [Bool.not_true, Bool.false_eq_true, if_false]
  have hd := sprintfChars_append "<D> ".toList f v no_pct_dbg
  have hnl2 : '\n' ∉ sprintfChars ("<D> ".toList ++ f) v := by
    rw [hd]
    intro hmem
    rcases List.mem_append.mp hmem with h | h
    · exact absurd h (by decide)
    · exact hnl h
  have := writeEvent_fs_plain s ("<D> ".toList ++ f) v c hdef hop hflags hnl2 hc
  rwa [hd] at this

/-! ## Event line bodies and the emission-order theorem core. -/

/-- The text-line body an event contributes with debug disabled: none for a
debug call, `prefix ++ marker ++ formatted message` otherwise.  Fatal events
are kept out of the sequences this is applied to. -/
def evLineBody (pfx : Str) : Ev → Option Str
  | .dbg _ _ => none
  | .inf f a => some (pfx ++ sprintfChars f a)
  | .wrn f a => some (pfx ++ ("<WRN> ".toList ++ sprintfChars f a))
  | .err f a => some (pfx ++ ("<ERR> ".toList ++ sprintfChars f a))
  | .fat _ _ => none

/-- Side condition on one event: not fatal, and its rendered line body is
newline-free (so it occupies exactly one text line). -/
def evGood (pfx : Str) : Ev → Bool
  | .dbg _ _ => true
  | .inf f a => !(decide ('\n' ∈ pfx ++ sprintfChars f a))
  | .wrn f a => !(decide ('\n' ∈ pfx ++ ("<WRN> ".toList ++ sprintfChars f a)))
  | .err f a => !(decide ('\n' ∈ pfx ++ ("<ERR> ".toList ++ sprintfChars f a)))
  | .fat _ _ => false

/-- Running a sequence of level-function calls on an open file-backed
Logger (debug disabled, no header flag) appends to the destination exactly
one newline-terminated line per written event, in emission order. -/
theorem runEvs_fs_content (evs : List Ev) (s : Sys) (c : Str)
    (hdbg : s.lg.debug = false) (hdef : s.lg.isDefault = false)
    (hop : s.lg.handleOpen = true)
    (hflags : s.lg.loggerFlags &&& headerMask = 0)
    (hgood : evs.all (evGood s.lg.loggerPfx) = true)
    (hc : fsRead s.fs s.lg.logName = some c) :
    fsRead (runEvs s evs).fs s.lg.logName
      = some (c ++ linesJoin (evs.filterMap (evLineBody s.lg.loggerPfx))) := by
  induction evs generalizing s c with
  | nil => simpa [runEvs, linesJoin] using hc
  | cons e rest ih =>
    rw [List.all_cons, Bool.and_eq_true] at hgood
    obtain ⟨hg, hgrest⟩ := hgood
    cases e with
    | dbg f a =>
      rw [show runEvs s (.dbg f a :: rest) = runEvs (Logger.D s f a) rest from rfl,
        D_disabled s f a hdbg]
      simpa [evLineBody] using ih s c hdbg hdef hop hflags hgrest hc
    | fat f a => exact absurd hg (by simp [evGood])
    | inf f a =>
      have hnl : '\n' ∉ sprintfChars f a := by
        simp only [evGood, Bool.not_eq_eq_eq_not, Bool.not_true, decide_eq_false_iff_not] at hg
        exact fun h => hg (List.mem_append.mpr (Or.inr h))
      have hstep := I_fs_plain s f a c hdef hop hflags hnl hc
      have hlg : (Logger.I s f a).lg = s.lg := I_lg s f a
      have := ih (Logger.I s f a) (c ++ (s.lg.loggerPfx ++ sprintfChars f a ++ ['\n']))
        (by rw [hlg]; exact hdbg) (by rw [hlg]; exact hdef) (by rw [hlg]; exact hop)
        (by rw [hlg]; exact hflags) (by rw [hlg]; exact hgrest) (by rw [hlg]; exact hstep)
      rw [show runEvs s (.inf f a :: rest) = runEvs (Logger.I s f a) rest from rfl]
      rw [hlg] at this
      rw [this, List.filterMap_cons]
      simp [evLineBody, linesJoin_cons]
    | wrn f a =>
      have hnl : '\n' ∉ sprintfChars f a := by
        simp only [evGood, Bool.not_eq_eq_eq_not, Bool.not_true, decide_eq_false_iff_not] at hg
        exact fun h => hg (List.mem_append.mpr (Or.inr (List.mem_append.mpr (Or.inr h))))
      have hstep := W_fs_plain s f a c hdef hop hflags hnl hc
      have hlg : (Logger.W s f a).lg = s.lg := W_lg s f a
      have := ih (Logger.W s f a)
        (c ++ (s.lg.loggerPfx ++ ("<WRN> ".toList ++ sprintfChars f a) ++ ['\n']))
        (by rw [hlg]; exact hdbg) (by rw [hlg]; exact hdef) (by rw [hlg]; exact hop)
        (by rw [hlg]; exact hflags) (by rw [hlg]; exact hgrest) (by rw [hlg]; exact hstep)
      rw [show runEvs s (.wrn f a :: rest) = runEvs (Logger.W s f a) rest from rfl]
      rw [hlg] at this
      rw [this, List.filterMap_cons]
      simp [evLineBody, linesJoin_cons]
    | err f a =>
      have hnl : '\n' ∉ sprintfChars f a := by
        simp only [evGood, Bool.not_eq_eq_eq_not, Bool.not_true, decide_eq_false_iff_not] at hg
        exact fun h => hg (List.mem_append.mpr (Or.inr (List.mem_append.mpr (Or.inr h))))
      have hstep := E_fs_plain s f a c hdef hop hflags hnl hc
      have hlg : (Logger.E s f a).lg = s.lg := E_lg s f a
      have := ih (Logger.E s f a)
        (c ++ (s.lg.loggerPfx ++ ("<ERR> ".toList ++ sprintfChars f a) ++ ['\n']))
        (by rw [hlg]; exact hdbg) (by rw [hlg]; exact hdef) (by rw [hlg]; exact hop)
        (by rw [hlg]; exact hflags) (by rw [hlg]; exact hgrest) (by rw [hlg]; exact hstep)
      rw [show runEvs s (.err f a :: rest) = runEvs (Logger.E s f a) rest from rfl]
      rw [hlg] at this
      rw [this, List.filterMap_cons]
      simp [evLineBody, linesJoin_cons]

/-! ## Statistics-hook invocation traces. -/

/-- The payload a call hands to the warning hook: only `Warn/W` events
produce one, and it is the caller's raw format/args. -/
def evWrnPayload : Ev → Option (Str × List Int)
  | .wrn f a => some (f, a)
  | _ => none

/-- The payload a call hands to the error hook: only `Err/E` events produce
one — in the code, fatal emission does not invoke the hook. -/
def evErrPayload : Ev → Option (Str × List Int)
  | .err f a => some (f, a)
  | _ => none

theorem D_calls (s : Sys) (f : Str) (v : List Int) :
    (Logger.D s f v).wrnCalls = s.wrnCalls ∧ (Logger.D s f v).errCalls = s.errCalls := by
  unfold Logger.D
  by_cases h : s.lg.debug <;> simp [h]

theorem I_calls (s : Sys) (f : Str) (v : List Int) :
    (Logger.I s f v).wrnCalls = s.wrnCalls ∧ (Logger.I s f v).errCalls = s.errCalls := by
  unfold Logger.I
  simp

theorem W_calls (s : Sys) (f : Str) (v : List Int) (hw : Nat)
    (h : s.lg.wrnEventStat = some hw) :
    (Logger.W s f v).wrnCalls = s.wrnCalls ++ [(hw, f, v)]
      ∧ (Logger.W s f v).errCalls = s.errCalls := by
  unfold Logger.W
  simp [h]

theorem E_calls (s : Sys) (f : Str) (v : List Int) (he : Nat)
    (h : s.lg.errEventStat = some he) :
    (Logger.E s f v).errCalls = s.errCalls ++ [(he, f, v)]
      ∧ (Logger.E s f v).wrnCalls = s.wrnCalls := by
  unfold Logger.E
  by_cases h1 : s.lg.isDefault <;> simp [h, h1]

theorem F_calls (s : Sys) (f : Str) (v : List Int) (dx : Bool) :
    (Logger.F s f v dx).wrnCalls = s.wrnCalls
      ∧ (Logger.F s f v dx).errCalls = s.errCalls := by
  unfold Logger.F
  by_cases h1 : s.lg.isDefault <;> simp [h1]

/-- With both hooks installed, a run appends to each hook trace exactly one
record per Warn (resp. Err) event, carrying the hook's identity and the
caller's raw format/args; Debug, Info and Fatal events append nothing. -/
theorem runEvs_hook_traces (evs : List Ev) (s : Sys) (hw he : Nat)
    (h1 : s.lg.wrnEventStat = some hw) (h2 : s.lg.errEventStat = some he) :
    (runEvs s evs).wrnCalls
        = s.wrnCalls ++ (evs.filterMap evWrnPayload).map (fun p => (hw, p.1, p.2))
      ∧ (runEvs s evs).errCalls
        = s.errCalls ++ (evs.filterMap evErrPayload).map (fun p => (he, p.1, p.2)) := by
  induction evs generalizing s with
  | nil => simp [runEvs]
  | cons e rest ih =>
    have hlg : (runEv s e).lg = s.lg := runEv_lg s e
    have ihe := ih (runEv s e) (by rw [hlg]; exact h1) (by rw [hlg]; exact h2)
    rw [show runEvs s (e :: rest) = runEvs (runEv s e) rest from rfl]
    cases e with
    | dbg f a =>
      obtain ⟨cw, ce⟩ := D_calls s f a
      rw [show runEv s (.dbg f a) = Logger.D s f a from rfl] at ihe ⊢
      rw [ihe.1, ihe.2, cw, ce]
      simp [evWrnPayload, evErrPayload]
    | inf f a =>
      obtain ⟨cw, ce⟩ := I_calls s f a
      rw [show runEv s (.inf f a) = Logger.I s f a from rfl] at ihe ⊢
      rw [ihe.1, ihe.2, cw, ce]
      simp [evWrnPayload, evErrPayload]
    | wrn f a =>
      obtain ⟨cw, ce⟩ := W_calls s f a hw h1
      rw [show runEv s (.wrn f a) = Logger.W s f a from rfl] at ihe ⊢
      rw [ihe.1, ihe.2, cw, ce]
      simp [evWrnPayload, evErrPayload]
    | err f a =>
      obtain ⟨ce, cw⟩ := E_calls s f a he h2
      rw [show runEv s (.err f a) = Logger.E s f a from rfl] at ihe ⊢
      rw [ihe.1, ihe.2, cw, ce]
      simp [evWrnPayload, evErrPayload]
    | fat f a =>
      obtain ⟨cw, ce⟩ := F_calls s f a false
      rw [show runEv s (.fat f a) = Logger.F s f a false from rfl] at ihe ⊢
      rw [ihe.1, ihe.2, cw, ce]
      simp [evWrnPayload, evErrPayload]

/-! ## Field-level behavior of the prefix/flag resolver. -/

@[simp] theorem setFlags_logName (l : Logger) (pfx : Str) (flags pid : Nat) :
    (l.setFlags pfx flags pid).logName = l.logName := by
  unfold Logger.setFlags
  by_cases h1 : flags &&& NoPID = 0
  · simp [h1]
  · by_cases h2 : pfx = [] <;> simp [h1, h2]

@[simp] theorem setFlags_debug (l : Logger) (pfx : Str) (flags pid : Nat) :
    (l.setFlags pfx flags pid).debug = l.debug := by
  unfold Logger.setFlags
  by_cases h1 : flags &&& NoPID = 0
  · simp [h1]
  · by_cases h2 : pfx = [] <;> simp [h1, h2]

@[simp] theorem setFlags_closed (l : Logger) (pfx : Str) (flags pid : Nat) :
    (l.setFlags pfx flags pid).closed = l.closed := by
  unfold Logger.setFlags
  by_cases h1 : flags &&& NoPID = 0
  · simp [h1]
  · by_cases h2 : pfx = [] <;> simp [h1, h2]

@[simp] theorem setFlags_workerStarted (l : Logger) (pfx : Str) (flags pid : Nat) :
    (l.setFlags pfx flags pid).workerStarted = l.workerStarted := by
  unfold Logger.setFlags
  by_cases h1 : flags &&& NoPID = 0
  · simp [h1]
  · by_cases h2 : pfx = [] <;> simp [h1, h2]

@[simp] theorem setFlags_workerParked (l : Logger) (pfx : Str) (flags pid : Nat) :
    (l.setFlags pfx flags pid).workerParked = l.workerParked := by
  unfold Logger.setFlags
  by_cases h1 : flags &&& NoPID = 0
  · simp [h1]
  · by_cases h2 : pfx = [] <;> simp [h1, h2]

@[simp] theorem setFlags_errEventStat (l : Logger) (pfx : Str) (flags pid : Nat) :
    (l.setFlags pfx flags pid).errEventStat = l.errEventStat := by
  unfold Logger.setFlags
  by_cases h1 : flags &&& NoPID = 0
  · simp [h1]
  · by_cases h2 : pfx = [] <;> simp [h1, h2]

@[simp] theorem setFlags_wrnEventStat (l : Logger) (pfx : Str) (flags pid : Nat) :
    (l.setFlags pfx flags pid).wrnEventStat = l.wrnEventStat := by
  unfold Logger.setFlags
  by_cases h1 : flags &&& NoPID = 0
  · simp [h1]
  · by_cases h2 : pfx = [] <;> simp [h1, h2]

@[simp] theorem setFlags_isDefault (l : Logger) (pfx : Str) (flags pid : Nat) :
    (l.setFlags pfx flags pid).isDefault = l.isDefault := by
  unfold Logger.setFlags
  by_cases h1 : flags &&& NoPID = 0
  · simp [h1]
  · by_cases h2 : pfx = [] <;> simp [h1, h2]

@[simp] theorem setFlags_handleOpen (l : Logger) (pfx : Str) (flags pid : Nat) :
    (l.setFlags pfx flags pid).handleOpen = l.handleOpen := by
  unfold Logger.setFlags
  by_cases h1 : flags &&& NoPID = 0
  · simp [h1]
  · by_cases h2 : pfx = [] <;> simp [h1, h2]

@[simp] theorem setFlags_loggerPfx (l : Logger) (pfx : Str) (flags pid : Nat) :
    (l.setFlags pfx flags pid).loggerPfx = l.loggerPfx := by
  unfold Logger.setFlags
  by_cases h1 : flags &&& NoPID = 0
  · simp [h1]
  · by_cases h2 : pfx = [] <;> simp [h1, h2]

@[simp] theorem setFlags_loggerFlags (l : Logger) (pfx : Str) (flags pid : Nat) :
    (l.setFlags pfx flags pid).loggerFlags = l.loggerFlags := by
  unfold Logger.setFlags
  by_cases h1 : flags &&& NoPID = 0
  · simp [h1]
  · by_cases h2 : pfx = [] <;> simp [h1, h2]

@[simp] theorem setFlags_origPfx (l : Logger) (pfx : Str) (flags pid : Nat) :
    (l.setFlags pfx flags pid).origPfx = pfx := by
  unfold Logger.setFlags
  by_cases h1 : flags &&& NoPID = 0
  · simp [h1]
  · by_cases h2 : pfx = [] <;> simp [h1, h2]

@[simp] theorem setFlags_logFlags (l : Logger) (pfx : Str) (flags pid : Nat) :
    (l.setFlags pfx flags pid).logFlags = flags ||| logFlagsAlways := by
  unfold Logger.setFlags
  by_cases h1 : flags &&& NoPID = 0
  · simp [h1]
  · by_cases h2 : pfx = [] <;> simp [h1, h2]

/-! ## Concrete states used to instantiate the theorems. -/

/-- A filesystem in which every containing directory exists. -/
def dirAll : Str → Bool := fun _ => true

/-- The spec's scenario logger: `Open("/tmp/x.log", "app", 0)` on a fresh
process (pid fixed to 7), debug disabled. -/
def scenarioOpen : Sys :=
  (Logger.Open {} "/tmp/x.log".toList "app".toList 0 7 dirAll).2

/-- The spec's scenario calls: `Info("v=%d",1); Warn("w=%d",2); Err("e=%d",3)`. -/
def scenarioEvs : List Ev :=
  [.inf "v=%d".toList [1], .wrn "w=%d".toList [2], .err "e=%d".toList [3]]

/-- The scenario logger with both statistics hooks installed
(error hook tagged 0, warning hook tagged 1). -/
def hookSys : Sys := Logger.SetStatFuncs scenarioOpen (some 0) (some 1)

/-- A logger opened on the default stream: `Open(DefaultLog, "app", 0)`. -/
def defOpenSys : Sys := (Logger.Open {} [] "app".toList 0 7 dirAll).2

/-! ## The claims. -/

/-- Claim C3 is falsified by a default-stream logger: after a successful
`Close()` of a Logger opened on the default stream, the closed flag was
never set, and a second `Close()` blocks in the stop handshake instead of
returning the `ErrLogClosed` sentinel. -/
theorem claim3_default_double_close_counterexample :
    (Logger.Close defOpenSys).1 = CloseRet.retOk
      ∧ ¬ ((Logger.Close (Logger.Close defOpenSys).2).1
            = CloseRet.retErr LogErr.errLogClosed) := by
  exact ⟨by decide, by decide⟩

/-- Claim C3 (amended): `Close()` on a never-opened or already-closed
Logger (closed flag set) returns the `ErrLogClosed` sentinel with the state
untouched; after a successful `Close()` of a *file-backed* Logger a second
`Close()` returns the sentinel; after a successful `Close()` of a
default-stream Logger the closed flag is still clear and a second `Close()`
blocks in the stop handshake instead of returning the sentinel. -/
theorem claim3_close_sentinel (s t u : Sys)
    (hs : s.lg.closed = true)
    (ht1 : t.lg.closed = false) (ht2 : t.lg.workerParked = false)
    (ht3 : t.lg.logName ≠ []) (ht4 : t.lg.handleOpen = true)
    (hu1 : u.lg.closed = false) (hu2 : u.lg.workerParked = false)
    (hu3 : u.lg.logName = []) :
    Logger.Close s = (.retErr .errLogClosed, s)
      ∧ (Logger.Close t).1 = .retOk
      ∧ ((Logger.Close t).2).lg.closed = true
      ∧ (Logger.Close (Logger.Close t).2).1 = .retErr .errLogClosed
      ∧ (Logger.Close u).1 = .retOk
      ∧ ((Logger.Close u).2).lg.closed = false
      ∧ (Logger.Close (Logger.Close u).2).1 = .blocked := by
  refine ⟨by simp [Logger.Close, hs], ?_, ?_, ?_, ?_, ?_, ?_⟩
  · simp [Logger.Close, ht1, ht2, ht3, ht4]
  · simp [Logger.Close, ht1, ht2, ht3, ht4]
  · simp [Logger.Close, ht1, ht2, ht3, ht4]
  · simp [Logger.Close, hu1, hu2, hu3]
  · simp [Logger.Close, hu1, hu2, hu3]
  · simp [Logger.Close, hu1, hu2, hu3]

/-- Witness for C3 (amended): instantiated with a fresh `NewLogger`, the
file-backed scenario logger and the default-stream logger. -/
theorem claim3_close_sentinel_witness :
    Logger.Close ({} : Sys) = (.retErr .errLogClosed, ({} : Sys))
      ∧ (Logger.Close scenarioOpen).1 = .retOk
      ∧ ((Logger.Close scenarioOpen).2).lg.closed = true
      ∧ (Logger.Close (Logger.Close scenarioOpen).2).1 = .retErr .errLogClosed
      ∧ (Logger.Close defOpenSys).1 = .retOk
      ∧ ((Logger.Close defOpenSys).2).lg.closed = false
      ∧ (Logger.Close (Logger.Close defOpenSys).2).1 = .blocked :=
  claim3_close_sentinel ({} : Sys) scenarioOpen defOpenSys
    (by decide) (by decide) (by decide) (by decide) (by decide)
    (by decide) (by decide) (by decide)

/-- Claim C4 is falsified on the empty-appName/no-PID branch: the resolver
leaves the previous `logPrefix` in place instead of clearing it, so the
result does depend on the resolver's previous state. -/
theorem claim4_resolver_counterexample :
    ¬ ((Logger.setFlags (Logger.setFlags NewLogger "x".toList NoPID 7) [] NoPID 7).logPfx
        = []) := by
  decide

/-- Claim C4 (amended): the resolver sets `origPrefix = appName`, the
effective flags (also as returned by `Flags()`) to the caller's flags OR-ed
with the always-on `Lmsgprefix` bit, and `logPrefix` to
`"<appName>[<pid>]: "` without `NoPID`, `"<appName>: "` with `NoPID` and a
non-empty appName, and otherwise leaves `logPrefix` unchanged (so `""` only
on a fresh Logger); the resolver is idempotent for fixed arguments. -/
theorem claim4_resolver (l : Logger) (pfx : Str) (flags pid : Nat) :
    (l.setFlags pfx flags pid).origPfx = pfx
      ∧ (l.setFlags pfx flags pid).logFlags = flags ||| logFlagsAlways
      ∧ Logger.Flags (l.setFlags pfx flags pid) = flags ||| logFlagsAlways
      ∧ (l.setFlags pfx flags pid).logPfx
          = (if flags &&& NoPID = 0 then
               pfx ++ "[".toList ++ (toString pid).toList ++ "]: ".toList
             else if pfx = [] then l.logPfx else pfx ++ ": ".toList)
      ∧ (l.setFlags pfx flags pid).setFlags pfx flags pid = l.setFlags pfx flags pid := by
  unfold Logger.setFlags Logger.Flags
  by_cases h1 : flags &&& NoPID = 0
  · simp [h1]
  · by_cases h2 : pfx = []
    · simp [h1, h2]
    · simp [h1, h2]

/-- Claim C9: `SetFlags` recomputes the prefix/flag fields with the
preserved `origPrefix` and then performs a full `Reopen`, returning its
result; on a closed (or never-opened) Logger it returns the `ErrLogClosed`
sentinel while the fields have already been updated. -/
theorem claim9_setflags_reopen (s : Sys) (flags pid : Nat) (dirOk : Str → Bool)
    (hclosed : s.lg.closed = true) :
    Logger.SetFlags s flags pid dirOk
        = Logger.Reopen { s with lg := s.lg.setFlags s.lg.origPfx flags pid } dirOk
      ∧ (Logger.SetFlags s flags pid dirOk).1 = .retErr .errLogClosed
      ∧ ((Logger.SetFlags s flags pid dirOk).2).lg.origPfx = s.lg.origPfx
      ∧ ((Logger.SetFlags s flags pid dirOk).2).lg.logFlags = flags ||| logFlagsAlways
      ∧ ((Logger.SetFlags s flags pid dirOk).2).lg.closed = true := by
  have hcl : (s.lg.setFlags s.lg.origPfx flags pid).closed = true := by
    unfold Logger.setFlags
    by_cases h1 : flags &&& NoPID = 0
    · simpa [h1] using hclosed
    · by_cases h2 : s.lg.origPfx = [] <;> simpa [h1, h2] using hclosed
  have horig : (s.lg.setFlags s.lg.origPfx flags pid).origPfx = s.lg.origPfx := by
    unfold Logger.setFlags
    by_cases h1 : flags &&& NoPID = 0
    · simp [h1]
    · by_cases h2 : s.lg.origPfx = [] <;> simp [h1, h2]
  have hfl : (s.lg.setFlags s.lg.origPfx flags pid).logFlags = flags ||| logFlagsAlways := by
    unfold Logger.setFlags
    by_cases h1 : flags &&& NoPID = 0
    · simp [h1]
    · by_cases h2 : s.lg.origPfx = [] <;> simp [h1, h2]
  refine ⟨rfl, ?_, ?_, ?_, ?_⟩ <;>
    simp [Logger.SetFlags, Logger.Reopen, Logger.Close, hclosed, hcl, horig, hfl]

/-- Witness for C9: a fresh, never-opened Logger. -/
theorem claim9_setflags_reopen_witness :
    Logger.SetFlags ({} : Sys) NoPID 7 dirAll
        = Logger.Reopen { ({} : Sys) with
            lg := Logger.setFlags (({} : Sys)).lg (({} : Sys)).lg.origPfx NoPID 7 } dirAll
      ∧ (Logger.SetFlags ({} : Sys) NoPID 7 dirAll).1 = .retErr .errLogClosed
      ∧ ((Logger.SetFlags ({} : Sys) NoPID 7 dirAll).2).lg.origPfx = (({} : Sys)).lg.origPfx
      ∧ ((Logger.SetFlags ({} : Sys) NoPID 7 dirAll).2).lg.logFlags = NoPID ||| logFlagsAlways
      ∧ ((Logger.SetFlags ({} : Sys) NoPID 7 dirAll).2).lg.closed = true :=
  claim9_setflags_reopen ({} : Sys) NoPID 7 dirAll (by decide)

/-- Claim C5: on an open file-backed Logger a `Debug/D` call writes a
`"<D> "`-marked line exactly when `SetDebug(true)` is in force: after
`SetDebug(false)` the call leaves the whole state unchanged, and after
`SetDebug(true)` it appends `prefix ++ "<D> " ++ message ++ "\n"`. -/
theorem claim5_debug_gate (s : Sys) (f : Str) (a : List Int) (c : Str)
    (hdef : s.lg.isDefault = false) (hop : s.lg.handleOpen = true)
    (hflags : s.lg.loggerFlags &&& headerMask = 0)
    (hnl : '\n' ∉ sprintfChars f a)
    (hc : fsRead s.fs s.lg.logName = some c) :
    Logger.D (Logger.SetDebug s false) f a = Logger.SetDebug s false
      ∧ fsRead (Logger.D (Logger.SetDebug s true) f a).fs s.lg.logName
          = some (c ++ (s.lg.loggerPfx ++ ("<D> ".toList ++ sprintfChars f a) ++ ['\n'])) := by
  constructor
  · exact D_disabled _ f a (by simp [Logger.SetDebug])
  · have h := D_fs_plain (Logger.SetDebug s true) f a c
      (by simp [Logger.SetDebug]) (by simpa [Logger.SetDebug] using hdef)
      (by simpa [Logger.SetDebug] using hop) (by simpa [Logger.SetDebug] using hflags)
      hnl (by simpa [Logger.SetDebug] using hc)
    simpa [Logger.SetDebug] using h

/-- Witness for C5: the scenario logger, message `"d=%d"` with argument 5. -/
theorem claim5_debug_gate_witness :
    Logger.D (Logger.SetDebug scenarioOpen false) "d=%d".toList [5]
        = Logger.SetDebug scenarioOpen false
      ∧ fsRead (Logger.D (Logger.SetDebug scenarioOpen true) "d=%d".toList [5]).fs
          scenarioOpen.lg.logName
        = some ("app[7]: <D> d=5\n".toList) := by
  have h := claim5_debug_gate scenarioOpen "d=%d".toList [5] []
    (by decide) (by decide) (by decide) (by decide) (by decide)
  exact ⟨h.1, h.2.trans (by decide)⟩

/-- Claim C6: `Open` on a non-empty path whose containing directory does
not exist returns a `FileError` whose unwrapped cause matches the not-exist
OS condition, and does not start the worker. -/
theorem claim6_open_missing_dir (s : Sys) (file pfx : Str) (flags pid : Nat)
    (dirOk : Str → Bool) (hfile : file ≠ [])
    (hnof : fsRead s.fs file = none) (hdir : dirOk file = false) :
    (Logger.Open s file pfx flags pid dirOk).1 = some (.fileError .errNotExist)
      ∧ LogErr.isCause (.fileError .errNotExist) .errNotExist = true
      ∧ ((Logger.Open s file pfx flags pid dirOk).2).lg.workerStarted
        = s.lg.workerStarted := by
  unfold Logger.Open Logger.openLog
  simp [hfile, hnof, hdir, LogErr.isCause]

/-- A filesystem interface on which no containing directory exists. -/
def dirNone : Str → Bool := fun _ => false

/-- Witness for C6: opening `"bad/x.log"` on a fresh Logger with no
existing directories. -/
theorem claim6_open_missing_dir_witness :
    (Logger.Open {} "bad/x.log".toList "app".toList 0 7 dirNone).1
        = some (.fileError .errNotExist)
      ∧ LogErr.isCause (.fileError .errNotExist) .errNotExist = true
      ∧ ((Logger.Open {} "bad/x.log".toList "app".toList 0 7 dirNone).2).lg.workerStarted
        = ({} : Sys).lg.workerStarted :=
  claim6_open_missing_dir {} "bad/x.log".toList "app".toList 0 7 dirNone
    (by decide) (by decide) (by decide)

/-- Claim C7: a successful `Reopen()` on an open file-backed Logger
reopens the backend at the unchanged destination path and preserves every
configuration field (`logName`, `origPrefix`, `logPrefix`, `logFlags`, the
debug flag and both statistics hooks); when the inner `Close()` fails,
`Reopen()` returns exactly `Close`'s error and state, without reopening. -/
theorem claim7_reopen_frame (s t : Sys) (dirOk : Str → Bool) (c : Str)
    (hs1 : s.lg.closed = false) (hs2 : s.lg.workerParked = false)
    (hs3 : s.lg.logName ≠ []) (hs4 : s.lg.handleOpen = true)
    (hsc : fsRead s.fs s.lg.logName = some c)
    (ht1 : t.lg.closed = false) (ht2 : t.lg.workerParked = false)
    (ht3 : t.lg.logName ≠ []) (ht4 : t.lg.handleOpen = false) :
    (Logger.Reopen s dirOk).1 = .retOk
      ∧ ((Logger.Reopen s dirOk).2).lg.logName = s.lg.logName
      ∧ ((Logger.Reopen s dirOk).2).lg.origPfx = s.lg.origPfx
      ∧ ((Logger.Reopen s dirOk).2).lg.logPfx = s.lg.logPfx
      ∧ ((Logger.Reopen s dirOk).2).lg.logFlags = s.lg.logFlags
      ∧ ((Logger.Reopen s dirOk).2).lg.debug = s.lg.debug
      ∧ ((Logger.Reopen s dirOk).2).lg.errEventStat = s.lg.errEventStat
      ∧ ((Logger.Reopen s dirOk).2).lg.wrnEventStat = s.lg.wrnEventStat
      ∧ ((Logger.Reopen s dirOk).2).lg.closed = false
      ∧ ((Logger.Reopen s dirOk).2).lg.isDefault = false
      ∧ Logger.Reopen t dirOk = Logger.Close t
      ∧ (Logger.Close t).1 = .retErr (.fileError .errClosed) := by
  refine ⟨?_, ?_, ?_, ?_, ?_, ?_, ?_, ?_, ?_, ?_, ?_, ?_⟩ <;>
    simp [Logger.Reopen, Logger.Close, Logger.openLog,
      hs1, hs2, hs3, hs4, hsc, ht1, ht2, ht3, ht4]

/-- Witness for C7: success on the scenario logger; failure on the same
logger with its handle closed out-of-band. -/
theorem claim7_reopen_frame_witness :
    (Logger.Reopen scenarioOpen dirAll).1 = .retOk
      ∧ ((Logger.Reopen scenarioOpen dirAll).2).lg.logName = scenarioOpen.lg.logName
      ∧ ((Logger.Reopen scenarioOpen dirAll).2).lg.origPfx = scenarioOpen.lg.origPfx
      ∧ ((Logger.Reopen scenarioOpen dirAll).2).lg.logPfx = scenarioOpen.lg.logPfx
      ∧ ((Logger.Reopen scenarioOpen dirAll).2).lg.logFlags = scenarioOpen.lg.logFlags
      ∧ ((Logger.Reopen scenarioOpen dirAll).2).lg.debug = scenarioOpen.lg.debug
      ∧ ((Logger.Reopen scenarioOpen dirAll).2).lg.errEventStat
          = scenarioOpen.lg.errEventStat
      ∧ ((Logger.Reopen scenarioOpen dirAll).2).lg.wrnEventStat
          = scenarioOpen.lg.wrnEventStat
      ∧ ((Logger.Reopen scenarioOpen dirAll).2).lg.closed = false
      ∧ ((Logger.Reopen scenarioOpen dirAll).2).lg.isDefault = false
      ∧ Logger.Reopen { scenarioOpen with
            lg := { scenarioOpen.lg with handleOpen := false } } dirAll
          = Logger.Close { scenarioOpen with
              lg := { scenarioOpen.lg with handleOpen := false } }
      ∧ (Logger.Close { scenarioOpen with
            lg := { scenarioOpen.lg with handleOpen := false } }).1
          = .retErr (.fileError .errClosed) :=
  claim7_reopen_frame scenarioOpen
    { scenarioOpen with lg := { scenarioOpen.lg with handleOpen := false } } dirAll []
    (by decide) (by decide) (by decide) (by decide) (by decide)
    (by decide) (by decide) (by decide) (by decide)

/-- Claim C10: the package-level `Open` replaces the singleton by a
brand-new Logger: debug is off and both statistics hooks are gone whatever
was installed before, and the resulting logger derives solely from the
call's arguments (two prior states whose filesystems agree on the target
path yield identical loggers and identical results). -/
theorem claim10_pkg_open_fresh (s1 s2 : Sys) (file pfx : Str) (flags pid : Nat)
    (dirOk : Str → Bool) (hfs : fsRead s1.fs file = fsRead s2.fs file) :
    ((pkgOpen s1 file pfx flags pid dirOk).2).lg.debug = false
      ∧ ((pkgOpen s1 file pfx flags pid dirOk).2).lg.errEventStat = none
      ∧ ((pkgOpen s1 file pfx flags pid dirOk).2).lg.wrnEventStat = none
      ∧ ((pkgOpen s1 file pfx flags pid dirOk).2).lg.origPfx = pfx
      ∧ ((pkgOpen s1 file pfx flags pid dirOk).2).lg.logName = file
      ∧ ((pkgOpen s1 file pfx flags pid dirOk).2).lg.logFlags = flags ||| logFlagsAlways
      ∧ ((pkgOpen s1 file pfx flags pid dirOk).2).lg
          = ((pkgOpen s2 file pfx flags pid dirOk).2).lg
      ∧ (pkgOpen s1 file pfx flags pid dirOk).1
          = (pkgOpen s2 file pfx flags pid dirOk).1 := by
  unfold pkgOpen Logger.Open Logger.openLog
  by_cases hf : file = []
  · subst hf
    simp [NewLogger]
  · cases hr1 : fsRead s1.fs file with
    | some c0 =>
      have hr2 : fsRead s2.fs file = some c0 := by rw [← hfs, hr1]
      simp [hf, hr1, hr2, NewLogger]
    | none =>
      have hr2 : fsRead s2.fs file = none := by rw [← hfs, hr1]
      by_cases hd : dirOk file
      · simp [hf, hr1, hr2, hd, NewLogger]
      · simp [hf, hr1, hr2, hd, NewLogger]

/-- Witness for C10: a prior state with debug on and both hooks installed
versus a fresh state. -/
theorem claim10_pkg_open_fresh_witness :
    ((pkgOpen (Logger.SetDebug hookSys true) "new.log".toList "app2".toList 0 9 dirAll).2).lg.debug
        = false
      ∧ ((pkgOpen (Logger.SetDebug hookSys true) "new.log".toList "app2".toList 0 9 dirAll).2).lg.errEventStat
        = none
      ∧ ((pkgOpen (Logger.SetDebug hookSys true) "new.log".toList "app2".toList 0 9 dirAll).2).lg.wrnEventStat
        = none
      ∧ ((pkgOpen (Logger.SetDebug hookSys true) "new.log".toList "app2".toList 0 9 dirAll).2).lg.origPfx
        = "app2".toList
      ∧ ((pkgOpen (Logger.SetDebug hookSys true) "new.log".toList "app2".toList 0 9 dirAll).2).lg.logName
        = "new.log".toList
      ∧ ((pkgOpen (Logger.SetDebug hookSys true) "new.log".toList "app2".toList 0 9 dirAll).2).lg.logFlags
        = 0 ||| logFlagsAlways
      ∧ ((pkgOpen (Logger.SetDebug hookSys true) "new.log".toList "app2".toList 0 9 dirAll).2).lg
        = ((pkgOpen {} "new.log".toList "app2".toList 0 9 dirAll).2).lg
      ∧ (pkgOpen (Logger.SetDebug hookSys true) "new.log".toList "app2".toList 0 9 dirAll).1
        = (pkgOpen {} "new.log".toList "app2".toList 0 9 dirAll).1 :=
  claim10_pkg_open_fresh (Logger.SetDebug hookSys true) {} "new.log".toList "app2".toList
    0 9 dirAll (by decide)

/-- The side condition `evGood` makes every produced line body
newline-free. -/
theorem evGood_bodies_no_nl (pfx : Str) (evs : List Ev)
    (hgood : evs.all (evGood pfx) = true) :
    ∀ b ∈ evs.filterMap (evLineBody pfx), '\n' ∉ b := by
  intro b hb
  rcases List.mem_filterMap.mp hb with ⟨e, he, hbe⟩
  have hg := List.all_eq_true.mp hgood e he
  cases e with
  | dbg f a => exact absurd hbe (by simp [evLineBody])
  | fat f a => exact absurd hbe (by simp [evLineBody])
  | inf f a =>
    simp only [evLineBody, Option.some.injEq] at hbe
    simp only [evGood, Bool.not_eq_eq_eq_not, Bool.not_true, decide_eq_false_iff_not] at hg
    exact hbe ▸ hg
  | wrn f a =>
    simp only [evLineBody, Option.some.injEq] at hbe
    simp only [evGood, Bool.not_eq_eq_eq_not, Bool.not_true, decide_eq_false_iff_not] at hg
    exact hbe ▸ hg
  | err f a =>
    simp only [evLineBody, Option.some.injEq] at hbe
    simp only [evGood, Bool.not_eq_eq_eq_not, Bool.not_true, decide_eq_false_iff_not] at hg
    exact hbe ▸ hg

/-- Claim C1: on an open file-backed Logger with debug disabled (and no
header-producing flag bit), a sequence of level-function calls appends to
the destination exactly one newline-terminated text line per written event,
in emission order, each line equal to
`logPrefix ++ levelMarker ++ formatted message` (no marker for Info,
`"<WRN> "` for Warn, `"<ERR> "` for Err); splitting the appended text on
newlines returns exactly those line bodies plus the empty trailing field,
i.e. the output ends with a newline. -/
theorem claim1_emission_lines (evs : List Ev) (s : Sys) (c : Str)
    (hdbg : s.lg.debug = false) (hdef : s.lg.isDefault = false)
    (hop : s.lg.handleOpen = true)
    (hflags : s.lg.loggerFlags &&& headerMask = 0)
    (hgood : evs.all (evGood s.lg.loggerPfx) = true)
    (hc : fsRead s.fs s.lg.logName = some c) :
    fsRead (runEvs s evs).fs s.lg.logName
        = some (c ++ linesJoin (evs.filterMap (evLineBody s.lg.loggerPfx)))
      ∧ splitNlChars (linesJoin (evs.filterMap (evLineBody s.lg.loggerPfx)))
        = evs.filterMap (evLineBody s.lg.loggerPfx) ++ [[]] := by
  refine ⟨runEvs_fs_content evs s c hdbg hdef hop hflags hgood hc, ?_⟩
  exact splitNlChars_linesJoin _ (evGood_bodies_no_nl _ _ hgood)

/-- Witness for C1: the spec's scenario
`Open("/tmp/x.log","app",0); Info("v=%d",1); Warn("w=%d",2); Err("e=%d",3)`
with pid fixed to 7 produces exactly the three expected lines and a
trailing newline. -/
theorem claim1_emission_lines_witness :
    fsRead (runEvs scenarioOpen scenarioEvs).fs scenarioOpen.lg.logName
        = some ("app[7]: v=1\napp[7]: <WRN> w=2\napp[7]: <ERR> e=3\n".toList)
      ∧ splitNlChars ("app[7]: v=1\napp[7]: <WRN> w=2\napp[7]: <ERR> e=3\n".toList)
        = ["app[7]: v=1".toList, "app[7]: <WRN> w=2".toList,
           "app[7]: <ERR> e=3".toList, []] := by
  have h := claim1_emission_lines scenarioEvs scenarioOpen []
    (by decide) (by decide) (by decide) (by decide) (by decide) (by decide)
  exact ⟨h.1.trans (by decide), by decide⟩

/-- Claim C2 is falsified on the fatal path: with both hooks installed,
`F` (fatal emission) does not invoke the error hook at all — the trace
stays empty instead of receiving the call's payload. -/
theorem claim2_fatal_hook_counterexample :
    ¬ ((Logger.F hookSys "boom".toList [] false).errCalls
        = hookSys.errCalls ++ [(0, "boom".toList, ([] : List Int))]) := by
  decide

/-- Claim C2 (amended): with both statistics hooks installed, every
`Warn/W` call invokes the warning hook exactly once and every `Err/E` call
invokes the error hook exactly once, synchronously, with exactly the
caller's unprefixed, unmarked format string and arguments, independent of
debug mode; `Debug/Info` calls never invoke either hook — and neither does
fatal emission (`Fatal/F`), contrary to the original claim. -/
theorem claim2_hook_invocations (evs : List Ev) (s : Sys) (hw he : Nat)
    (h1 : s.lg.wrnEventStat = some hw) (h2 : s.lg.errEventStat = some he) :
    (runEvs s evs).wrnCalls
        = s.wrnCalls ++ (evs.filterMap evWrnPayload).map (fun p => (hw, p.1, p.2))
      ∧ (runEvs s evs).errCalls
        = s.errCalls ++ (evs.filterMap evErrPayload).map (fun p => (he, p.1, p.2)) :=
  runEvs_hook_traces evs s hw he h1 h2

/-- Witness for C2 (amended): a debug, info, warn, err and fatal call on
the hooked scenario logger leave exactly one warning-hook record and one
error-hook record, carrying the raw payloads of the warn and err calls. -/
theorem claim2_hook_invocations_witness :
    (runEvs hookSys
        [.dbg "d".toList [], .inf "i".toList [], .wrn "w=%d".toList [1],
         .err "e=%d".toList [2], .fat "f".toList []]).wrnCalls
        = [(1, "w=%d".toList, [1])]
      ∧ (runEvs hookSys
          [.dbg "d".toList [], .inf "i".toList [], .wrn "w=%d".toList [1],
           .err "e=%d".toList [2], .fat "f".toList []]).errCalls
        = [(0, "e=%d".toList, [2])] := by
  have h := claim2_hook_invocations
    [.dbg "d".toList [], .inf "i".toList [], .wrn "w=%d".toList [1],
     .err "e=%d".toList [2], .fat "f".toList []]
    hookSys 1 0 (by decide) (by decide)
  exact ⟨h.1.trans (by decide), h.2.trans (by decide)⟩

end RLog
